import Mathlib

/-!
Shallow embedding of the query-routing and response-assembly pipeline of
the Voice AI Agent backend (src/main.py): the `transcribe_audio` adapter,
the `process_query` router and the `chat_voice` / `chat_text` endpoint
handlers, with the speech-to-text engine and the language-model agent as
black-box collaborator functions, following the program's own interfaces.
-/

namespace VoiceAI

/-- An HTTP error raised through FastAPI's HTTPException: a status code and
a detail message (src/main.py uses HTTPException(status_code, detail)). -/
structure HTTPError where
  status : Nat
  detail : String
deriving DecidableEq, Repr

/-- Audio content: the raw bytes of the uploaded file. -/
abbrev Bytes := List Nat

/-- The dict returned by the speech engine's transcribe call: in the source,
`result.get("text", "")` reads an optional "text" key, so the key is an
`Option String` here. -/
structure TransResult where
  text : Option String
deriving Repr

/-- The speech-to-text engine (the whisper model) as a black-box collaborator:
audio content to either a transcription result or a raised engine fault whose
detail string is arbitrary. -/
structure WhisperModel where
  transcribe : Bytes → Except String TransResult

/-- One entry of the agent's invocation trace: the source reads
`step[0].tool` for each step, so each entry carries a tool identifier. -/
structure AgentStep where
  tool : String
deriving Repr

/-- The dict returned by `agent_executor.invoke`: the source reads the
optional keys "output" (`result.get("output", fallback)`) and
"intermediate_steps" (`result.get("intermediate_steps", [])`). -/
structure AgentResult where
  output : Option String
  intermediate_steps : Option (List AgentStep)
deriving Repr

/-- The language-model agent as a black-box collaborator: query text to
either an invocation result or a raised agent fault with arbitrary detail. -/
structure Agent where
  invoke : String → Except String AgentResult

/-- The response model of both endpoints (class VoiceResponse, src/main.py
lines 48-51). -/
structure VoiceResponse where
  transcript : String
  response : String
  search_triggered : Bool
deriving DecidableEq, Repr

/-- The wider dict returned by `process_query`: response text and the
search flag. -/
structure QueryResult where
  response : String
  search_triggered : Bool
deriving DecidableEq, Repr

/-- Python's `str.strip()` over the ASCII whitespace characters: drop
whitespace from both ends of the string. -/
def strip (s : String) : String :=
  String.mk (((s.toList.dropWhile Char.isWhitespace).reverse.dropWhile
    Char.isWhitespace).reverse)

/-- Python's `str.endswith(suffix)` for one suffix, over character lists. -/
def endswith (s suffix : String) : Bool :=
  suffix.toList.isSuffixOf s.toList

/-- `transcribe_audio(file_path)` (src/main.py lines 96-106), with the
global `whisper_model` and the filesystem passed explicitly: `none` models
an uninitialized engine; the file at `path` is looked up in `files` and fed
to the engine; the text value is defaulted to "" when the key is absent and
stripped, and any engine fault is converted to a 500 "Audio processing
failed" error. The 503 check happens before the try block, so it escapes
as an HTTPException. -/
def transcribe_audio (whisper_model : Option WhisperModel)
    (files : List (String × Bytes)) (path : String) : Except HTTPError String :=
  match whisper_model with
  | none => .error ⟨503, "Models not initialized yet"⟩
  | some m =>
    match files.lookup path with
    | none => .error ⟨500, "Audio processing failed"⟩
    | some content =>
      match m.transcribe content with
      | .ok r => .ok (strip (r.text.getD ""))
      | .error _ => .error ⟨500, "Audio processing failed"⟩

/-- `process_query(query)` (src/main.py lines 108-135), with the global
`agent_executor` passed explicitly (`none` models an uninitialized agent,
raising 503 before the try block). Inside the try block: empty query short-
circuits to the clarification message; otherwise the agent is invoked,
`search_triggered` is `any(step[0].tool == "WebSearch" for step in
result.get("intermediate_steps", []))`, the response is
`result.get("output", "I couldn't process that request.")`, and any raised
agent fault is converted to a successful apology result. -/
def process_query (agent_executor : Option Agent) (query : String) :
    Except HTTPError QueryResult :=
  match agent_executor with
  | none => .error ⟨503, "Models not initialized yet"⟩
  | some a =>
    if query = "" then
      .ok ⟨"I didn't catch that. Could you please repeat?", false⟩
    else
      match a.invoke query with
      | .ok result =>
        .ok ⟨result.output.getD "I couldn't process that request.",
             (result.intermediate_steps.getD []).any (fun s => s.tool = "WebSearch")⟩
      | .error _ => .ok ⟨"I encountered an error processing your request.", false⟩

/-- The state of the temp-file storage across requests: a counter giving
each NamedTemporaryFile a fresh name, and the set of temp files currently
present with their contents. -/
structure World where
  counter : Nat
  files : List (String × Bytes)
deriving DecidableEq, Repr

/-- The extension part of `os.path.splitext(filename)`: everything from the
last dot, where the leading dots of the name do not start an extension
(so ".wav" has extension "", "a.tar.gz" has ".gz"). -/
def splitext_suffix (s : String) : String :=
  let cs := s.toList
  let rest := cs.drop ((cs.takeWhile (fun c => c = '.')).length)
  if rest.contains '.' then
    String.mk ('.' :: (rest.reverse.takeWhile (fun c => c ≠ '.')).reverse)
  else ""

/-- Models the collaborator `tempfile.NamedTemporaryFile(delete=False,
suffix=...)`: a uniquely named transient path built from the world counter,
preserving the extension of the uploaded filename. -/
def tmpName (n : Nat) (suffix : String) : String :=
  "/tmp/upload" ++ toString n ++ suffix

/-- The temp path the voice endpoint uses for a request arriving at world
`w` with the given filename. -/
def request_tmp_path (filename : String) (w : World) : String :=
  tmpName w.counter (splitext_suffix filename)

/-- `file.filename.endswith((".wav", ".mp3", ".ogg", ".flac"))`
(src/main.py line 141): the case-sensitive extension allow-list check. -/
def allowed_filename (filename : String) : Bool :=
  [".wav", ".mp3", ".ogg", ".flac"].any (fun e => endswith filename e)

/-- A Python exception as seen by chat_voice's handlers: either an
HTTPException (re-raised as is) or any other exception carrying an
arbitrary detail string. -/
inductive PyFault where
  | httpExc : HTTPError → PyFault
  | raw : String → PyFault
deriving DecidableEq, Repr

/-- The globals a request handler reads: the two models (None until
initialization finishes) and whether persisting the upload to the temp
file succeeds. -/
structure Env where
  whisper_model : Option WhisperModel
  agent_executor : Option Agent
  saveOk : Bool

/-- What one voice request produces: the HTTP-level outcome, the world
after the request, and how many times `process_query` was invoked. -/
structure ChatVoiceOut where
  res : Except HTTPError VoiceResponse
  world : World
  routerCalls : Nat
deriving Repr

/-- Like `ChatVoiceOut` but before exception handling: the body of the
try block can end in a PyFault. -/
structure BodyOut where
  res : Except PyFault VoiceResponse
  world : World
  routerCalls : Nat
deriving Repr

/-- The try block of `chat_voice` (src/main.py lines 157-177): transcribe
the temp file, unlink it after a successful transcription, short-circuit
on an empty transcript, otherwise route through `process_query` and
assemble the `VoiceResponse`. A fault raised by transcription escapes
before the unlink line runs, so the temp file stays in the world there. -/
def chat_voice_try (env : Env) (tmp_path : String) (w1 : World) : BodyOut :=
  match transcribe_audio env.whisper_model w1.files tmp_path with
  | .error e => ⟨.error (.httpExc e), w1, 0⟩
  | .ok transcript =>
    let w2 : World := ⟨w1.counter, w1.files.eraseP (fun p => p.1 == tmp_path)⟩
    if transcript = "" then
      ⟨.ok ⟨"", "I didn't catch that. Could you please repeat?", false⟩, w2, 0⟩
    else
      match process_query env.agent_executor transcript with
      | .error e => ⟨.error (.httpExc e), w2, 1⟩
      | .ok r => ⟨.ok ⟨transcript, r.response, r.search_triggered⟩, w2, 1⟩

/-- The exception handlers of `chat_voice` (src/main.py lines 178-182):
`except HTTPException: raise` re-raises typed errors unchanged, and the
final `except Exception` converts anything else into a generic
500 "Internal server error". -/
def chat_voice_handle : Except PyFault VoiceResponse → Except HTTPError VoiceResponse
  | .ok v => .ok v
  | .error (.httpExc e) => .error e
  | .error (.raw _) => .error ⟨500, "Internal server error"⟩

/-- `chat_voice(file)` (src/main.py lines 137-182): validate the filename
extension (400 on mismatch, before any storage), persist the upload to a
fresh temp path (500 "File upload failed" when persisting fails; modeled
as failing before the file appears), then run the try block and its
exception handlers. -/
def chat_voice (env : Env) (filename : String) (content : Bytes) (w : World) :
    ChatVoiceOut :=
  if ¬ allowed_filename filename then
    ⟨.error ⟨400, "Unsupported file format. Supported formats: WAV, MP3, OGG, FLAC"⟩, w, 0⟩
  else if ¬ env.saveOk then
    ⟨.error ⟨500, "File upload failed"⟩, w, 0⟩
  else
    let tmp_path := request_tmp_path filename w
    let w1 : World := ⟨w.counter + 1, (tmp_path, content) :: w.files⟩
    let b := chat_voice_try env tmp_path w1
    ⟨chat_voice_handle b.res, b.world, b.routerCalls⟩

/-- `chat_text(request)` (src/main.py lines 188-196): route the text
through `process_query` (no try block of its own, so an HTTPException
from the router propagates) and echo the text as the transcript. -/
def chat_text (env : Env) (text : String) : Except HTTPError VoiceResponse :=
  match process_query env.agent_executor text with
  | .error e => .error e
  | .ok r => .ok ⟨text, r.response, r.search_triggered⟩

/-! ## General lemmas about the pipeline -/

/-- Transcribing the path just written at the head of the file store reads
back exactly the uploaded content. -/
theorem transcribe_audio_cons_self (wm : Option WhisperModel) (p : String)
    (c : Bytes) (fs : List (String × Bytes)) :
    transcribe_audio wm ((p, c) :: fs) p =
      match wm with
      | none => .error ⟨503, "Models not initialized yet"⟩
      | some m =>
        match m.transcribe c with
        | .ok r => .ok (strip (r.text.getD ""))
        | .error _ => .error ⟨500, "Audio processing failed"⟩ := by
  cases wm with
  | none => rfl
  | some m => simp [transcribe_audio, List.lookup]

/-- The only error `process_query` can raise is the 503 of an
uninitialized agent. -/
theorem process_query_error_elim (ag : Option Agent) (q : String) (e : HTTPError)
    (h : process_query ag q = .error e) : e = ⟨503, "Models not initialized yet"⟩ := by
  cases ag with
  | none => simpa [process_query] using h.symm
  | some a =>
    by_cases hq : q = "" <;>
      simp only [process_query, hq, if_pos, if_neg, not_false_eq_true] at h
    · cases h
    · cases hinv : a.invoke q <;> rw [hinv] at h <;> cases h

/-- The only errors `transcribe_audio` can raise are the 503 of an
uninitialized engine and the 500 conversion of an engine fault. -/
theorem transcribe_audio_error_elim (wm : Option WhisperModel)
    (fs : List (String × Bytes)) (p : String) (e : HTTPError)
    (h : transcribe_audio wm fs p = .error e) :
    e = ⟨503, "Models not initialized yet"⟩ ∨ e = ⟨500, "Audio processing failed"⟩ := by
  cases wm with
  | none => left; simpa [transcribe_audio] using h.symm
  | some m =>
    simp only [transcribe_audio] at h
    cases hl : fs.lookup p with
    | none => rw [hl] at h; cases h; right; rfl
    | some content =>
      rw [hl] at h
      dsimp only at h
      cases ht : m.transcribe content with
      | ok r => rw [ht] at h; cases h
      | error d => rw [ht] at h; cases h; right; rfl

/-- Unfolding `chat_voice` once the filename is accepted and the upload is
persisted. -/
theorem chat_voice_accepted (env : Env) (fn : String) (c : Bytes) (w : World)
    (hext : allowed_filename fn = true) (hsave : env.saveOk = true) :
    chat_voice env fn c w =
      ⟨chat_voice_handle (chat_voice_try env (request_tmp_path fn w)
          ⟨w.counter + 1, (request_tmp_path fn w, c) :: w.files⟩).res,
       (chat_voice_try env (request_tmp_path fn w)
          ⟨w.counter + 1, (request_tmp_path fn w, c) :: w.files⟩).world,
       (chat_voice_try env (request_tmp_path fn w)
          ⟨w.counter + 1, (request_tmp_path fn w, c) :: w.files⟩).routerCalls⟩ := by
  simp [chat_voice, hext, hsave]

/-- Erasing the just-written head entry of the file store recovers the
store below it. -/
theorem eraseP_head_self (p : String) (c : Bytes) (fs : List (String × Bytes)) :
    ((p, c) :: fs).eraseP (fun q => q.1 == p) = fs := by
  simp [List.eraseP_cons]

/-- The full clarify path: accepted filename, persisted upload, ready
engine, transcription succeeding with a transcript that strips to empty.
The request returns the fixed clarification result, the temp file is
removed, and `process_query` is never invoked. -/
theorem chat_voice_clarify (env : Env) (m : WhisperModel) (fn : String)
    (c : Bytes) (w : World) (r : TransResult)
    (hwm : env.whisper_model = some m) (hext : allowed_filename fn = true)
    (hsave : env.saveOk = true) (ht : m.transcribe c = .ok r)
    (hempty : strip (r.text.getD "") = "") :
    chat_voice env fn c w =
      ⟨.ok ⟨"", "I didn't catch that. Could you please repeat?", false⟩,
       ⟨w.counter + 1, w.files⟩, 0⟩ := by
  have htr : transcribe_audio env.whisper_model
      ((request_tmp_path fn w, c) :: w.files) (request_tmp_path fn w) = .ok "" := by
    rw [transcribe_audio_cons_self, hwm]
    dsimp only
    rw [ht]
    dsimp only
    rw [hempty]
  rw [chat_voice_accepted env fn c w hext hsave]
  unfold chat_voice_try
  dsimp only
  rw [htr]
  dsimp only
  rw [eraseP_head_self]
  rfl

/-- The outcome and router-call count of the try block do not depend on the
temp path chosen, the counter or the other files present: only the uploaded
content and the collaborators matter. -/
theorem chat_voice_try_pair (env : Env) (p p' : String) (n n' : Nat) (c : Bytes)
    (fs fs' : List (String × Bytes)) :
    (chat_voice_try env p ⟨n, (p, c) :: fs⟩).res
      = (chat_voice_try env p' ⟨n', (p', c) :: fs'⟩).res ∧
    (chat_voice_try env p ⟨n, (p, c) :: fs⟩).routerCalls
      = (chat_voice_try env p' ⟨n', (p', c) :: fs'⟩).routerCalls := by
  unfold chat_voice_try
  dsimp only
  rw [transcribe_audio_cons_self, transcribe_audio_cons_self]
  cases env.whisper_model with
  | none => exact ⟨rfl, rfl⟩
  | some m =>
    dsimp only
    cases m.transcribe c with
    | error d => exact ⟨rfl, rfl⟩
    | ok r =>
      dsimp only
      by_cases he : strip (r.text.getD "") = ""
      · simp [he]
      · simp only [he, if_neg, not_false_eq_true]
        cases process_query env.agent_executor (strip (r.text.getD "")) <;>
          exact ⟨rfl, rfl⟩

/-- Every successful `process_query` result carries the clarification, the
apology, or the agent output defaulted with the fixed fallback message. -/
theorem process_query_ok_response (ag : Option Agent) (q : String) (r : QueryResult)
    (h : process_query ag q = .ok r) :
    r.response = "I didn't catch that. Could you please repeat?" ∨
    r.response = "I encountered an error processing your request." ∨
    ∃ a res, ag = some a ∧ a.invoke q = .ok res ∧
      r.response = res.output.getD "I couldn't process that request." := by
  cases ag with
  | none => simp [process_query] at h
  | some a =>
    by_cases hq : q = ""
    · simp only [process_query, hq, if_pos] at h
      cases h
      exact Or.inl rfl
    · simp only [process_query, hq, if_neg, not_false_eq_true] at h
      cases hinv : a.invoke q with
      | error d =>
        rw [hinv] at h
        cases h
        exact Or.inr (Or.inl rfl)
      | ok res =>
        rw [hinv] at h
        cases h
        exact Or.inr (Or.inr ⟨a, res, rfl, hinv, rfl⟩)

/-- With an agent whose present outputs are never the empty string, every
successful `process_query` result has a non-empty response. -/
theorem process_query_response_nonempty (a : Agent)
    (hout : ∀ q res, a.invoke q = .ok res → res.output ≠ some "")
    (q : String) (r : QueryResult) (h : process_query (some a) q = .ok r) :
    r.response ≠ "" := by
  rcases process_query_ok_response (some a) q r h with h1 | h1 | ⟨a', res, ha', hinv, hresp⟩
  · rw [h1]; decide
  · rw [h1]; decide
  · injection ha' with ha'
    subst ha'
    cases ho : res.output with
    | none => rw [hresp, ho]; decide
    | some s =>
      rw [hresp, ho]
      dsimp only [Option.getD]
      intro hs
      exact hout q res hinv (by rw [ho, hs])

/-- The try block either succeeds — with the clarification response or a
response copied from a successful `process_query` — or raises one of the
two typed errors of the transcription adapter or the router's 503. -/
theorem chat_voice_try_res_cases (env : Env) (p : String) (w1 : World) :
    (∃ v, (chat_voice_try env p w1).res = .ok v ∧
      (v.response = "I didn't catch that. Could you please repeat?" ∨
        ∃ q r, process_query env.agent_executor q = .ok r ∧ v.response = r.response)) ∨
    ∃ e, (chat_voice_try env p w1).res = .error (.httpExc e) ∧
      (e = ⟨503, "Models not initialized yet"⟩ ∨ e = ⟨500, "Audio processing failed"⟩) := by
  unfold chat_voice_try
  cases h : transcribe_audio env.whisper_model w1.files p with
  | error e =>
    exact Or.inr ⟨e, rfl, transcribe_audio_error_elim _ _ _ _ h⟩
  | ok t =>
    dsimp only
    by_cases hempty : t = ""
    · simp only [hempty, if_pos]
      exact Or.inl ⟨_, rfl, Or.inl rfl⟩
    · simp only [hempty, if_neg, not_false_eq_true]
      cases hq : process_query env.agent_executor t with
      | error e =>
        exact Or.inr ⟨e, rfl, Or.inl (process_query_error_elim _ _ _ hq)⟩
      | ok r => exact Or.inl ⟨_, rfl, Or.inr ⟨t, r, hq, rfl⟩⟩

/-- Outcomes of the voice endpoint once the filename is accepted: a
successful result whose response is the clarification or comes from a
successful `process_query`, or one of three typed server errors — never
the 400 of the format check and never a raw collaborator fault. -/
theorem chat_voice_accepted_res_cases (env : Env) (fn : String) (c : Bytes)
    (w : World) (hext : allowed_filename fn = true) :
    (∃ v, (chat_voice env fn c w).res = .ok v ∧
      (v.response = "I didn't catch that. Could you please repeat?" ∨
        ∃ q r, process_query env.agent_executor q = .ok r ∧ v.response = r.response)) ∨
    (chat_voice env fn c w).res = .error ⟨500, "File upload failed"⟩ ∨
    (chat_voice env fn c w).res = .error ⟨503, "Models not initialized yet"⟩ ∨
    (chat_voice env fn c w).res = .error ⟨500, "Audio processing failed"⟩ := by
  by_cases hsave : env.saveOk
  · rw [chat_voice_accepted env fn c w hext hsave]
    dsimp only
    rcases chat_voice_try_res_cases env (request_tmp_path fn w)
        ⟨w.counter + 1, (request_tmp_path fn w, c) :: w.files⟩ with
      ⟨v, hres, hv⟩ | ⟨e, hres, he⟩
    · exact Or.inl ⟨v, by rw [hres]; rfl, hv⟩
    · rcases he with he | he <;> subst he
      · exact Or.inr (Or.inr (Or.inl (by rw [hres]; rfl)))
      · exact Or.inr (Or.inr (Or.inr (by rw [hres]; rfl)))
  · have hfail : chat_voice env fn c w = ⟨.error ⟨500, "File upload failed"⟩, w, 0⟩ := by
      simp [chat_voice, hext, hsave]
    rw [hfail]
    exact Or.inr (Or.inl rfl)

/-- A successful voice-endpoint result's response is the clarification or
is copied from a successful `process_query` result. -/
theorem chat_voice_ok_response (env : Env) (fn : String) (c : Bytes) (w : World)
    (v : VoiceResponse) (h : (chat_voice env fn c w).res = .ok v) :
    v.response = "I didn't catch that. Could you please repeat?" ∨
    ∃ q r, process_query env.agent_executor q = .ok r ∧ v.response = r.response := by
  by_cases hext : allowed_filename fn
  · rcases chat_voice_accepted_res_cases env fn c w hext with
      ⟨v', hres, hv⟩ | hres | hres | hres
    · rw [h] at hres
      injection hres with hres
      exact hres ▸ hv
    all_goals rw [h] at hres; cases hres
  · have hfail : chat_voice env fn c w
        = ⟨.error ⟨400, "Unsupported file format. Supported formats: WAV, MP3, OGG, FLAC"⟩,
           w, 0⟩ := by
      simp [chat_voice, hext]
    rw [hfail] at h
    cases h

/-! ## The claims -/

/-- C1: for every agent invocation result, `process_query` sets
`search_triggered` to true if and only if the invocation trace
(`intermediate_steps`) has at least one entry whose tool identifier equals
"WebSearch"; an absent trace, or a trace with only other tools, yields
false. -/
theorem C1_search_triggered_iff_websearch (a : Agent) (q : String) (res : AgentResult)
    (hq : q ≠ "") (hinv : a.invoke q = .ok res) :
    ∃ r, process_query (some a) q = .ok r ∧
      (r.search_triggered = true ↔
        ∃ s ∈ res.intermediate_steps.getD [], s.tool = "WebSearch") ∧
      (res.intermediate_steps = none → r.search_triggered = false) := by
  refine ⟨⟨res.output.getD "I couldn't process that request.",
      (res.intermediate_steps.getD []).any (fun s => s.tool = "WebSearch")⟩, ?_, ?_, ?_⟩
  · simp [process_query, hq, hinv]
  · simp [List.any_eq_true]
  · intro h
    simp [h]

/-- Witness for C1 at a concrete agent whose trace holds one WebSearch
step. -/
theorem C1_search_triggered_iff_websearch_witness :
    ∃ r, process_query (some ⟨fun _ => .ok ⟨some "Sunny", some [⟨"WebSearch"⟩]⟩⟩)
        "weather" = .ok r ∧
      (r.search_triggered = true ↔
        ∃ s ∈ (AgentResult.mk (some "Sunny")
          (some [⟨"WebSearch"⟩])).intermediate_steps.getD [], s.tool = "WebSearch") ∧
      ((AgentResult.mk (some "Sunny") (some [⟨"WebSearch"⟩])).intermediate_steps = none →
        r.search_triggered = false) :=
  C1_search_triggered_iff_websearch ⟨fun _ => .ok ⟨some "Sunny", some [⟨"WebSearch"⟩]⟩⟩
    "weather" ⟨some "Sunny", some [⟨"WebSearch"⟩]⟩ (by decide) rfl

/-- C2: for every non-empty query, a fault raised by the agent during
invocation is not propagated: `process_query` returns a successful result
carrying the fixed apology message and `search_triggered = false`. -/
theorem C2_agent_fault_becomes_apology (a : Agent) (q d : String)
    (hq : q ≠ "") (hinv : a.invoke q = .error d) :
    process_query (some a) q
      = .ok ⟨"I encountered an error processing your request.", false⟩ := by
  simp [process_query, hq, hinv]

/-- Witness for C2 at a concrete always-raising agent. -/
theorem C2_agent_fault_becomes_apology_witness :
    process_query (some ⟨fun _ => .error "timeout"⟩) "hello"
      = .ok ⟨"I encountered an error processing your request.", false⟩ :=
  C2_agent_fault_becomes_apology ⟨fun _ => .error "timeout"⟩ "hello" "timeout"
    (by decide) rfl

/-- C3: when transcription yields an empty or whitespace-only string, the
voice endpoint returns exactly the clarification result with empty
transcript and `search_triggered = false`, and `process_query` is never
invoked. -/
theorem C3_empty_transcript_short_circuit (env : Env) (m : WhisperModel)
    (fn : String) (c : Bytes) (w : World) (r : TransResult)
    (hwm : env.whisper_model = some m) (hext : allowed_filename fn = true)
    (hsave : env.saveOk = true) (ht : m.transcribe c = .ok r)
    (hempty : strip (r.text.getD "") = "") :
    (chat_voice env fn c w).res
      = .ok ⟨"", "I didn't catch that. Could you please repeat?", false⟩ ∧
    (chat_voice env fn c w).routerCalls = 0 := by
  rw [chat_voice_clarify env m fn c w r hwm hext hsave ht hempty]
  exact ⟨rfl, rfl⟩

/-- Witness for C3 at a concrete engine transcribing to whitespace. -/
theorem C3_empty_transcript_short_circuit_witness :
    (chat_voice ⟨some ⟨fun _ => .ok ⟨some "  "⟩⟩, none, true⟩ "a.wav" [1] ⟨0, []⟩).res
      = .ok ⟨"", "I didn't catch that. Could you please repeat?", false⟩ ∧
    (chat_voice ⟨some ⟨fun _ => .ok ⟨some "  "⟩⟩, none, true⟩ "a.wav" [1]
      ⟨0, []⟩).routerCalls = 0 :=
  C3_empty_transcript_short_circuit ⟨some ⟨fun _ => .ok ⟨some "  "⟩⟩, none, true⟩
    ⟨fun _ => .ok ⟨some "  "⟩⟩ "a.wav" [1] ⟨0, []⟩ ⟨some "  "⟩ rfl (by decide) rfl rfl
    (by decide)

/-- C4 counterexample: with a ready engine whose transcription raises, the
request reaches the transcription step, transcription raises the converted
500 fault, and the temp file is NOT removed: it is still present in the
world after the request. -/
theorem C4_counterexample_leak_on_fault :
    ((chat_voice ⟨some ⟨fun _ => .error "engine fault"⟩, none, true⟩ "a.wav" [7]
        ⟨0, []⟩).res = .error ⟨500, "Audio processing failed"⟩) ∧
    (chat_voice ⟨some ⟨fun _ => .error "engine fault"⟩, none, true⟩ "a.wav" [7]
        ⟨0, []⟩).world.files = [("/tmp/upload0.wav", [7])] :=
  ⟨rfl, rfl⟩

/-- C4 (amended): for every request that reaches the transcription step,
the temp file is removed exactly when transcription succeeds; when
transcription raises, the temp file is left in place. -/
theorem C4_temp_file_removed_iff_transcription_ok (env : Env) (fn : String)
    (c : Bytes) (w : World)
    (hext : allowed_filename fn = true) (hsave : env.saveOk = true) :
    (chat_voice env fn c w).world.files =
      if (transcribe_audio env.whisper_model
          ((request_tmp_path fn w, c) :: w.files) (request_tmp_path fn w)).isOk
      then w.files
      else (request_tmp_path fn w, c) :: w.files := by
  rw [chat_voice_accepted env fn c w hext hsave]
  unfold chat_voice_try
  dsimp only
  cases h : transcribe_audio env.whisper_model
      ((request_tmp_path fn w, c) :: w.files) (request_tmp_path fn w) with
  | error e => simp [Except.isOk, Except.toBool]
  | ok t =>
    by_cases he : t = ""
    · simp [he, eraseP_head_self, Except.isOk, Except.toBool]
    · cases hq : process_query env.agent_executor t <;>
        simp [he, hq, eraseP_head_self, Except.isOk, Except.toBool]

/-- Witness for the amended C4 at a concrete successful transcription. -/
theorem C4_temp_file_removed_iff_transcription_ok_witness :
    (chat_voice ⟨some ⟨fun _ => .ok ⟨some "hey"⟩⟩, some ⟨fun _ => .ok ⟨some "yo", some []⟩⟩,
        true⟩ "a.wav" [1] ⟨0, []⟩).world.files =
      if (transcribe_audio (some ⟨fun _ => .ok ⟨some "hey"⟩⟩)
          ((request_tmp_path "a.wav" ⟨0, []⟩, [1]) :: ([] : List (String × Bytes)))
          (request_tmp_path "a.wav" ⟨0, []⟩)).isOk
      then ([] : List (String × Bytes))
      else [(request_tmp_path "a.wav" ⟨0, []⟩, [1])] :=
  C4_temp_file_removed_iff_transcription_ok
    ⟨some ⟨fun _ => .ok ⟨some "hey"⟩⟩, some ⟨fun _ => .ok ⟨some "yo", some []⟩⟩, true⟩
    "a.wav" [1] ⟨0, []⟩ (by decide) rfl

/-- C9: with the collaborators fixed and deterministic, the outcome of the
voice endpoint does not depend on the ambient world (temp naming counter or
files already present): repeated calls on the same audio content return
identical results. -/
theorem C9_pipeline_deterministic (env : Env) (fn : String) (c : Bytes)
    (w w' : World) :
    (chat_voice env fn c w).res = (chat_voice env fn c w').res ∧
    (chat_voice env fn c w).routerCalls = (chat_voice env fn c w').routerCalls := by
  by_cases hext : allowed_filename fn
  · by_cases hsave : env.saveOk
    · rw [chat_voice_accepted env fn c w hext hsave,
        chat_voice_accepted env fn c w' hext hsave]
      obtain ⟨h1, h2⟩ := chat_voice_try_pair env (request_tmp_path fn w)
        (request_tmp_path fn w') (w.counter + 1) (w'.counter + 1) c w.files w'.files
      exact ⟨by rw [h1], by rw [h2]⟩
    · simp [chat_voice, hext, hsave]
  · simp [chat_voice, hext]

/-- C10: when transcription yields an empty transcript, the voice endpoint
returns the clarification result successfully even though the agent is not
yet initialized (`agent_executor = none`): agent readiness is only checked
inside `process_query`, which this path never reaches. -/
theorem C10_clarify_without_agent (m : WhisperModel) (fn : String) (c : Bytes)
    (w : World) (r : TransResult)
    (hext : allowed_filename fn = true) (ht : m.transcribe c = .ok r)
    (hempty : strip (r.text.getD "") = "") :
    (chat_voice ⟨some m, none, true⟩ fn c w).res
      = .ok ⟨"", "I didn't catch that. Could you please repeat?", false⟩ ∧
    (chat_voice ⟨some m, none, true⟩ fn c w).routerCalls = 0 := by
  rw [chat_voice_clarify ⟨some m, none, true⟩ m fn c w r rfl hext rfl ht hempty]
  exact ⟨rfl, rfl⟩

/-- Witness for C10 at a concrete engine yielding whitespace and an
uninitialized agent. -/
theorem C10_clarify_without_agent_witness :
    (chat_voice ⟨some ⟨fun _ => .ok ⟨some " \n"⟩⟩, none, true⟩ "b.ogg" [2] ⟨5, []⟩).res
      = .ok ⟨"", "I didn't catch that. Could you please repeat?", false⟩ ∧
    (chat_voice ⟨some ⟨fun _ => .ok ⟨some " \n"⟩⟩, none, true⟩ "b.ogg" [2]
      ⟨5, []⟩).routerCalls = 0 :=
  C10_clarify_without_agent ⟨fun _ => .ok ⟨some " \n"⟩⟩ "b.ogg" [2] ⟨5, []⟩
    ⟨some " \n"⟩ (by decide) rfl (by decide)

/-- C5 counterexample: an agent result whose "output" key is present but
holds the empty string is returned verbatim — the text endpoint answers
successfully with an empty `response`, and no fallback is substituted, so
the non-empty-response invariant fails. -/
theorem C5_counterexample_empty_response :
    chat_text ⟨none, some ⟨fun _ => .ok ⟨some "", some []⟩⟩, true⟩ "hi"
      = .ok ⟨"hi", "", false⟩ := rfl

/-- C5 (amended): the fixed fallback message is substituted only when the
agent result's output field is absent; a present output is used verbatim,
so the response of every successful voice or text result is non-empty
provided the agent's output, whenever present, is non-empty. -/
theorem C5_response_nonempty (env : Env) (a : Agent) (text fn : String)
    (c : Bytes) (w : World) (v : VoiceResponse)
    (ha : env.agent_executor = some a)
    (hout : ∀ q res, a.invoke q = .ok res → res.output ≠ some "")
    (hv : chat_text env text = .ok v ∨ (chat_voice env fn c w).res = .ok v) :
    v.response ≠ "" := by
  rcases hv with hv | hv
  · unfold chat_text at hv
    cases hq : process_query env.agent_executor text with
    | error e => rw [hq] at hv; cases hv
    | ok r =>
      rw [hq] at hv
      dsimp only at hv
      injection hv with hv
      rw [ha] at hq
      rw [← hv]
      exact process_query_response_nonempty a hout text r hq
  · rcases chat_voice_ok_response env fn c w v hv with h1 | ⟨q, r, hq, hresp⟩
    · rw [h1]; decide
    · rw [hresp]
      rw [ha] at hq
      exact process_query_response_nonempty a hout q r hq

/-- Witness for the amended C5 at a concrete agent returning a non-empty
output through the text endpoint. -/
theorem C5_response_nonempty_witness :
    (VoiceResponse.mk "hi" "x" false).response ≠ "" :=
  C5_response_nonempty ⟨none, some ⟨fun _ => .ok ⟨some "x", none⟩⟩, true⟩
    ⟨fun _ => .ok ⟨some "x", none⟩⟩ "hi" "f.wav" [] ⟨0, []⟩ ⟨"hi", "x", false⟩ rfl
    (fun q res h => by injection h with h2; subst h2; simp) (Or.inl rfl)

/-- C6: a filename whose suffix is one of the four allowed (case-sensitive)
extensions passes format validation — the 400 UnsupportedFormat error is
never the outcome; any other filename is rejected with exactly that 400
error before any side effect: the world is unchanged and `process_query`
is never invoked. -/
theorem C6_format_validation (env : Env) (fn : String) (c : Bytes) (w : World) :
    (allowed_filename fn = true →
      (chat_voice env fn c w).res ≠ .error ⟨400,
        "Unsupported file format. Supported formats: WAV, MP3, OGG, FLAC"⟩) ∧
    (allowed_filename fn = false →
      chat_voice env fn c w = ⟨.error ⟨400,
        "Unsupported file format. Supported formats: WAV, MP3, OGG, FLAC"⟩, w, 0⟩) := by
  constructor
  · intro hext hcontra
    rcases chat_voice_accepted_res_cases env fn c w hext with
      ⟨v, hres, _⟩ | hres | hres | hres
    · rw [hcontra] at hres; cases hres
    all_goals rw [hcontra] at hres; simp at hres
  · intro hext
    simp [chat_voice, hext]

/-- C7: the voice endpoint's final handler converts any fault that is not
an HTTPException into the generic 500 "Internal server error", and the
caller only ever sees a successful result or one of the five fixed typed
errors — no raw collaborator fault (whose detail here is arbitrary) ever
reaches the caller. -/
theorem C7_no_raw_fault_reaches_caller (env : Env) (fn : String) (c : Bytes)
    (w : World) :
    (∀ d, chat_voice_handle (.error (.raw d)) = .error ⟨500, "Internal server error"⟩) ∧
    ((∃ v, (chat_voice env fn c w).res = .ok v) ∨
      ∃ e, (chat_voice env fn c w).res = .error e ∧
        (e = ⟨400, "Unsupported file format. Supported formats: WAV, MP3, OGG, FLAC"⟩ ∨
         e = ⟨500, "File upload failed"⟩ ∨
         e = ⟨503, "Models not initialized yet"⟩ ∨
         e = ⟨500, "Audio processing failed"⟩ ∨
         e = ⟨500, "Internal server error"⟩)) := by
  refine ⟨fun d => rfl, ?_⟩
  by_cases hext : allowed_filename fn
  · rcases chat_voice_accepted_res_cases env fn c w hext with
      ⟨v, hres, _⟩ | hres | hres | hres
    · exact Or.inl ⟨v, hres⟩
    · exact Or.inr ⟨_, hres, Or.inr (Or.inl rfl)⟩
    · exact Or.inr ⟨_, hres, Or.inr (Or.inr (Or.inl rfl))⟩
    · exact Or.inr ⟨_, hres, Or.inr (Or.inr (Or.inr (Or.inl rfl)))⟩
  · have hfail : chat_voice env fn c w
        = ⟨.error ⟨400, "Unsupported file format. Supported formats: WAV, MP3, OGG, FLAC"⟩,
           w, 0⟩ := by
      simp [chat_voice, hext]
    exact Or.inr ⟨_, by rw [hfail], Or.inl rfl⟩

/-- C8: a request arriving before initialization finished fails with a 503:
`transcribe_audio` raises it when the engine is not ready, and
`process_query` raises it when the agent is not ready. -/
theorem C8_unready_service_503 (files : List (String × Bytes)) (path q : String) :
    transcribe_audio none files path = .error ⟨503, "Models not initialized yet"⟩ ∧
    process_query none q = .error ⟨503, "Models not initialized yet"⟩ :=
  ⟨rfl, rfl⟩

end VoiceAI
